import Mathlib

/-!
Shallow embedding of the Shopify CRO repository's heuristic scoring engine,
centred on the one implemented rule, `HeroCTARule` (src/lib/heuristics/hero-cta.ts).
Numbers (`z.number()`, JS doubles) are modelled as rationals; the only
floating-point operation the rule performs, `Math.floor(15 * 0.47)`, yields 7
for the IEEE-754 doubles exactly as it does for the rationals used here.
`Date.now()` is threaded through as an explicit `now : Nat` parameter.
-/

namespace ShopifyCRO

/-- Severity enum from src/types/index.ts (`SeverityEnum = z.enum(['high','med','low'])`). -/
inductive Severity where
  | high
  | med
  | low
deriving DecidableEq, Repr

/-- JSON-like dynamic values, modelling the loosely typed
`evidence: Record<string, any>` payloads built by the rule. Object fields keep
JS insertion order as a list of key-value pairs. -/
inductive JVal where
  | num (q : ℚ)
  | str (s : String)
  | bool (b : Bool)
  | arr (xs : List JVal)
  | obj (fields : List (String × JVal))
deriving Repr

/-- `size: {width, height}` of a CTA button (src/types/index.ts). -/
structure Size where
  width : ℚ
  height : ℚ
deriving DecidableEq, Repr

/-- `position: {top, left}` of a CTA button (src/types/index.ts). -/
structure Position where
  top : ℚ
  left : ℚ
deriving DecidableEq, Repr

/-- `CTAButtonSchema` from src/types/index.ts. -/
structure CTAButton where
  text : String
  selector : String
  position : Position
  size : Size
  prominent : Bool
deriving DecidableEq, Repr

/-- The `aboveFold` group of `PageMetricsSchema`. -/
structure AboveFold where
  ctaButtons : List CTAButton
  height : ℚ
deriving DecidableEq, Repr

/-- The `performance` group of `PageMetricsSchema`. -/
structure Performance where
  loadTime : ℚ
deriving DecidableEq, Repr

/-- `PageMetricsSchema` from src/types/index.ts. -/
structure PageMetrics where
  aboveFold : AboveFold
  performance : Performance
deriving DecidableEq, Repr

/-- `Finding` from src/types/index.ts (the optional `recommendation`/`page`
back-references are never touched by the rule and are omitted). -/
structure Finding where
  id : String
  pageId : String
  ruleId : String
  severity : Severity
  evidence : List (String × JVal)
deriving Repr

/-- `Page` from src/types/index.ts. `type` is a string union at runtime;
the fields `findings`/`crawl` are never read by the rule and are omitted. -/
structure Page where
  id : String
  crawlId : String
  url : String
  type : String
  metrics : PageMetrics
deriving Repr

/-- `HeuristicResult` from src/types/index.ts. The optional TS fields
`skipped?`/`reason?` are `Option`s, `none` when absent from the literal. -/
structure HeuristicResult where
  passed : Bool
  score : Int
  finding : Option Finding
  skipped : Option Bool := none
  reason : Option String := none
deriving Repr

namespace HeroCTARule

/-- `APPLICABLE_PAGE_TYPES = ['home', 'product']`. -/
def APPLICABLE_PAGE_TYPES : List String := ["home", "product"]

/-- `WEAK_CTA_SCORE_RATIO = 0.47` (the double 0.47; as noted in the header,
the one computation using it agrees between the double and this rational). -/
def WEAK_CTA_SCORE_RATIO : ℚ := 47 / 100

/-- `MIN_PROMINENT_WIDTH = 120`. -/
def MIN_PROMINENT_WIDTH : ℚ := 120

/-- `MIN_PROMINENT_HEIGHT = 35`. -/
def MIN_PROMINENT_HEIGHT : ℚ := 35

/-- `ruleId = 'hero_cta_detection'`. -/
def ruleId : String := "hero_cta_detection"

/-- `maxScore = 15`. -/
def maxScore : Int := 15

/-- `isApplicablePageType(pageType)`: membership in `APPLICABLE_PAGE_TYPES`. -/
def isApplicablePageType (pageType : String) : Bool :=
  APPLICABLE_PAGE_TYPES.contains pageType

/-- `isProminentCTA(cta)`: width and height thresholds AND the extractor flag. -/
def isProminentCTA (cta : CTAButton) : Bool :=
  decide (cta.size.width ≥ MIN_PROMINENT_WIDTH) &&
  decide (cta.size.height ≥ MIN_PROMINENT_HEIGHT) &&
  cta.prominent

/-- `createFinding(page, ruleId, severity, evidence)`; the source reads only
`page.id` from the page, passed here as `pageId`, and `Date.now()` is the
explicit `now` parameter. The id is the template literal
`ruleId + "-" + page.id + "-" + Date.now()`. -/
def createFinding (now : Nat) (pageId : String) (fRuleId : String)
    (severity : Severity) (evidence : List (String × JVal)) : Finding :=
  { id := fRuleId ++ "-" ++ pageId ++ "-" ++ toString now
    pageId := pageId
    ruleId := fRuleId
    severity := severity
    evidence := evidence }

/-- `createSkippedResult()`. -/
def createSkippedResult : HeuristicResult :=
  { passed := false
    score := 0
    finding := none
    skipped := some true
    reason := some "Rule only applies to home and product pages" }

/-- `createMissingCTAResult(page)`; the source reads `page.id`, `page.type`
and `page.metrics.aboveFold.height`, passed here as explicit arguments so the
same construction serves both page models below. -/
def createMissingCTAResult (now : Nat) (pageId pageType : String)
    (aboveFoldHeight : ℚ) : HeuristicResult :=
  { passed := false
    score := 0
    finding := some (createFinding now pageId "hero_cta_missing" Severity.high
      [("ctaCount", JVal.num 0),
       ("pageType", JVal.str pageType),
       ("aboveFoldHeight", JVal.num aboveFoldHeight)]) }

/-- `createSuccessResult()`. -/
def createSuccessResult : HeuristicResult :=
  { passed := true
    score := maxScore
    finding := none }

/-- One entry of the `weakCTAs` evidence array:
`{text: cta.text, size: cta.size, prominent: cta.prominent}`. -/
def weakCTAEvidenceEntry (cta : CTAButton) : JVal :=
  JVal.obj [("text", JVal.str cta.text),
            ("size", JVal.obj [("width", JVal.num cta.size.width),
                               ("height", JVal.num cta.size.height)]),
            ("prominent", JVal.bool cta.prominent)]

/-- `createWeakCTAResult(page, ctaButtons)`; score is
`Math.floor(maxScore * WEAK_CTA_SCORE_RATIO)`. -/
def createWeakCTAResult (now : Nat) (pageId : String)
    (ctaButtons : List CTAButton) : HeuristicResult :=
  { passed := false
    score := Int.floor ((maxScore : ℚ) * WEAK_CTA_SCORE_RATIO)
    finding := some (createFinding now pageId "hero_cta_weak" Severity.med
      [("ctaCount", JVal.num ctaButtons.length),
       ("prominentCount", JVal.num 0),
       ("weakCTAs", JVal.arr (ctaButtons.map weakCTAEvidenceEntry))]) }

/-- `analyze(page)` over well-typed pages (metrics fully populated, as the
TypeScript `Page` type declares). Mirrors the source control flow: the
applicability guard, the emptiness check on `page.metrics.aboveFold.ctaButtons`,
then the filter on the extractor flag `cta.prominent` alone. -/
def analyze (now : Nat) (page : Page) : HeuristicResult :=
  if !(isApplicablePageType page.type) then
    createSkippedResult
  else
    let ctaButtons := page.metrics.aboveFold.ctaButtons
    if ctaButtons.length = 0 then
      createMissingCTAResult now page.id page.type page.metrics.aboveFold.height
    else
      let prominentCTAs := ctaButtons.filter (fun cta => cta.prominent)
      if prominentCTAs.length > 0 then
        createSuccessResult
      else
        createWeakCTAResult now page.id ctaButtons

end HeroCTARule

/-- `aboveFold` with possibly-absent members, for the dynamic (untyped JS
object) page model: `undefined` sub-fields are `none`. -/
structure AboveFoldDyn where
  ctaButtons : Option (List CTAButton)
  height : ℚ
deriving Repr

/-- `metrics` with a possibly-absent `aboveFold` group. -/
structure PageMetricsDyn where
  aboveFold : Option AboveFoldDyn
  performance : Option Performance
deriving Repr

/-- A page as an untyped JS object: shaped like `Page` but with the metric
sub-fields the rule dereferences allowed to be absent. -/
structure PageDyn where
  id : String
  crawlId : String
  url : String
  type : String
  metrics : PageMetricsDyn
deriving Repr

namespace HeroCTARule

/-- `analyze(page)` under JS runtime semantics on dynamically shaped pages:
dereferencing an absent property throws, modelled as `Except.error` carrying
the TypeError message. The statement
`const ctaButtons = page.metrics.aboveFold.ctaButtons` throws when `aboveFold`
is undefined, and the later `ctaButtons.length` throws when `ctaButtons` is
undefined; the source contains no guard for either. Everything else is the
same computation as `analyze`. -/
def analyzeDyn (now : Nat) (page : PageDyn) : Except String HeuristicResult :=
  if !(isApplicablePageType page.type) then
    Except.ok createSkippedResult
  else
    match page.metrics.aboveFold with
    | none => Except.error "TypeError: Cannot read properties of undefined (reading ctaButtons)"
    | some af =>
      match af.ctaButtons with
      | none => Except.error "TypeError: Cannot read properties of undefined (reading length)"
      | some ctaButtons =>
        if ctaButtons.length = 0 then
          Except.ok (createMissingCTAResult now page.id page.type af.height)
        else
          let prominentCTAs := ctaButtons.filter (fun cta => cta.prominent)
          if prominentCTAs.length > 0 then
            Except.ok createSuccessResult
          else
            Except.ok (createWeakCTAResult now page.id ctaButtons)

end HeroCTARule

/-! Concrete sample data, mirroring the shapes used in the repository's test
suite (src/lib/heuristics/tests). -/

/-- Build a CTA button with the given text, width, height and extractor flag. -/
def mkCTA (text : String) (w h : ℚ) (prom : Bool) : CTAButton :=
  { text := text
    selector := ".cta"
    position := { top := 300, left := 400 }
    size := { width := w, height := h }
    prominent := prom }

/-- Build a page with the given id, type, CTA list and above-fold height. -/
def mkPage (pid ptype : String) (ctas : List CTAButton) (foldHeight : ℚ) : Page :=
  { id := pid
    crawlId := "test-crawl-1"
    url := "https://test-store.example.com"
    type := ptype
    metrics := { aboveFold := { ctaButtons := ctas, height := foldHeight }
                 performance := { loadTime := 1000 } } }

/-- Home page whose single CTA has the extractor flag set but is far below the
geometric minimum (10 by 10). -/
def pageFlagSmall : Page := mkPage "test-page-c1" "home" [mkCTA "Buy" 10 10 true] 800

/-- Home page with one CTA that is prominent by flag and by geometry. -/
def pageProm : Page := mkPage "test-page-prom" "home" [mkCTA "Shop Now" 200 50 true] 800

/-- Home page with no CTA buttons above the fold. -/
def pageEmpty : Page := mkPage "test-page-empty" "home" [] 800

/-- Product page whose single CTA has the extractor flag set but fails the
geometric minimum (50 by 20). -/
def pageFlagMid : Page := mkPage "test-page-c4" "product" [mkCTA "Shop" 50 20 true] 600

/-- Home page with one small CTA whose extractor flag is false. -/
def pageWeak : Page := mkPage "test-page-weak" "home" [mkCTA "Learn more" 80 20 false] 800

/-- Collection page (outside the rule's applicable set). -/
def pageColl : Page := mkPage "test-page-coll" "collection" [] 800

/-- Dynamically shaped home page whose metrics lack the `aboveFold` group. -/
def pageDynMalformed : PageDyn :=
  { id := "test-page-dyn1"
    crawlId := "test-crawl-1"
    url := "https://test-store.example.com"
    type := "home"
    metrics := { aboveFold := none, performance := none } }

/-- Dynamically shaped home page whose metric sub-fields are all present. -/
def pageDynOk : PageDyn :=
  { id := "test-page-dyn2"
    crawlId := "test-crawl-1"
    url := "https://test-store.example.com"
    type := "home"
    metrics := { aboveFold := some { ctaButtons := some [], height := 800 }
                 performance := some { loadTime := 1000 } } }

/-- Dynamically shaped collection page whose metrics lack the `aboveFold`
group entirely (nothing for the rule to inspect). -/
def pageDynColl : PageDyn :=
  { id := "test-page-dyn3"
    crawlId := "test-crawl-1"
    url := "https://test-store.example.com"
    type := "collection"
    metrics := { aboveFold := none, performance := none } }

namespace HeroCTARule

/-! Helper lemmas about the rule's branches. -/

lemma isApplicable_iff (t : String) :
    isApplicablePageType t = true ↔ t = "home" ∨ t = "product" := by
  simp [isApplicablePageType, APPLICABLE_PAGE_TYPES, List.contains, List.elem_iff]

lemma weakScore_val : Int.floor ((maxScore : ℚ) * WEAK_CTA_SCORE_RATIO) = 7 := by
  norm_num [maxScore, WEAK_CTA_SCORE_RATIO]

lemma analyze_skip (now : Nat) (page : Page)
    (h : isApplicablePageType page.type = false) :
    analyze now page = createSkippedResult := by
  simp [analyze, h]

lemma analyze_missing (now : Nat) (page : Page)
    (h : isApplicablePageType page.type = true)
    (he : page.metrics.aboveFold.ctaButtons = []) :
    analyze now page =
      createMissingCTAResult now page.id page.type page.metrics.aboveFold.height := by
  simp [analyze, h, he]

lemma analyze_success (now : Nat) (page : Page)
    (h : isApplicablePageType page.type = true)
    (hflag : ∃ c ∈ page.metrics.aboveFold.ctaButtons, c.prominent = true) :
    analyze now page = createSuccessResult := by
  obtain ⟨c, hc, hcp⟩ := hflag
  have hne : page.metrics.aboveFold.ctaButtons ≠ [] := by
    intro hnil
    rw [hnil] at hc
    exact (List.not_mem_nil c) hc
  have hlen : page.metrics.aboveFold.ctaButtons.length ≠ 0 := by
    simpa [List.length_eq_zero] using hne
  have hfil : 0 < (page.metrics.aboveFold.ctaButtons.filter (fun cta => cta.prominent)).length := by
    apply List.length_pos.mpr
    intro hnil
    have := List.filter_eq_nil_iff.mp hnil c hc
    simp [hcp] at this
  simp [analyze, h, hlen, hfil]

lemma analyze_weak (now : Nat) (page : Page)
    (h : isApplicablePageType page.type = true)
    (hne : page.metrics.aboveFold.ctaButtons ≠ [])
    (hnoflag : ∀ c ∈ page.metrics.aboveFold.ctaButtons, c.prominent = false) :
    analyze now page = createWeakCTAResult now page.id page.metrics.aboveFold.ctaButtons := by
  have hlen : page.metrics.aboveFold.ctaButtons.length ≠ 0 := by
    simpa [List.length_eq_zero] using hne
  have hfil : (page.metrics.aboveFold.ctaButtons.filter (fun cta => cta.prominent)) = [] := by
    apply List.filter_eq_nil_iff.mpr
    intro c hc
    simp [hnoflag c hc]
  simp [analyze, h, hlen, hfil]

/-! Claim theorems. -/

/-- C1 counterexample: on a home page whose single CTA has the extractor flag
set but measures 10 by 10 (below both geometric minima), `analyze` grants full
credit (passed, score 15, no finding) even though no CTA in the list satisfies
`isProminentCTA`; the claimed equivalence between full credit and the
flag-AND-geometry condition is therefore false at this input. -/
theorem heroCTA_C1_counterexample :
    ((analyze 0 pageFlagSmall).passed = true ∧ (analyze 0 pageFlagSmall).score = 15 ∧
      (analyze 0 pageFlagSmall).finding = none) ∧
    ¬ (∃ c ∈ pageFlagSmall.metrics.aboveFold.ctaButtons, isProminentCTA c = true) := by
  have hsucc : analyze 0 pageFlagSmall = createSuccessResult := by
    apply analyze_success 0 pageFlagSmall rfl
    exact ⟨mkCTA "Buy" 10 10 true, by simp [pageFlagSmall, mkPage], rfl⟩
  constructor
  · rw [hsucc]
    exact ⟨rfl, rfl, rfl⟩
  · rintro ⟨c, hc, hcp⟩
    simp only [pageFlagSmall, mkPage, List.mem_singleton] at hc
    subst hc
    norm_num [isProminentCTA, mkCTA, MIN_PROMINENT_WIDTH, MIN_PROMINENT_HEIGHT] at hcp

/-- C1 amended: for every home or product page with a non-empty CTA list,
`analyze` grants full credit (passed, score 15, no finding) if and only if some
CTA in the list has the extractor's `prominent` flag set; the geometric minimum
(width at least 120, height at least 35) is checked only by the separate helper
`isProminentCTA` and plays no part in `analyze`. -/
theorem heroCTA_C1_amended (now : Nat) (page : Page)
    (htype : page.type = "home" ∨ page.type = "product")
    (hne : page.metrics.aboveFold.ctaButtons ≠ []) :
    ((analyze now page).passed = true ∧ (analyze now page).score = 15 ∧
      (analyze now page).finding = none)
    ↔ ∃ c ∈ page.metrics.aboveFold.ctaButtons, c.prominent = true := by
  have happ : isApplicablePageType page.type = true := (isApplicable_iff page.type).mpr htype
  constructor
  · intro hfull
    by_contra hno
    push_neg at hno
    have hnoflag : ∀ c ∈ page.metrics.aboveFold.ctaButtons, c.prominent = false := by
      intro c hc
      simpa using hno c hc
    rw [analyze_weak now page happ hne hnoflag] at hfull
    simp [createWeakCTAResult] at hfull
  · intro hex
    rw [analyze_success now page happ hex]
    exact ⟨rfl, rfl, rfl⟩

/-- C1 witness: the amended equivalence instantiated on a home page with one
flag-prominent CTA. -/
theorem heroCTA_C1_witness :
    (pageProm.type = "home" ∨ pageProm.type = "product") ∧
    pageProm.metrics.aboveFold.ctaButtons ≠ [] ∧
    (((analyze 0 pageProm).passed = true ∧ (analyze 0 pageProm).score = 15 ∧
        (analyze 0 pageProm).finding = none)
      ↔ ∃ c ∈ pageProm.metrics.aboveFold.ctaButtons, c.prominent = true) :=
  ⟨Or.inl rfl, by simp [pageProm, mkPage],
    heroCTA_C1_amended 0 pageProm (Or.inl rfl) (by simp [pageProm, mkPage])⟩

/-- C2 counterexample: on a home page whose metrics lack the `aboveFold` group,
`analyze` does not recover: the unguarded dereference
`page.metrics.aboveFold.ctaButtons` throws a TypeError (modelled as
`Except.error`) instead of treating the absence as an empty CTA list. -/
theorem heroCTA_C2_counterexample :
    analyzeDyn 0 pageDynMalformed =
      Except.error "TypeError: Cannot read properties of undefined (reading ctaButtons)" := rfl

/-- C2 amended: `analyze` never raises for any page whose metric sub-fields it
reads are present (an `aboveFold` group carrying a CTA list, as the TypeScript
schema declares); when `aboveFold` or `ctaButtons` is absent it throws a
TypeError rather than treating the absence as worst case. -/
theorem heroCTA_C2_amended (now : Nat) (page : PageDyn) (af : AboveFoldDyn)
    (ctas : List CTAButton)
    (haf : page.metrics.aboveFold = some af) (hcb : af.ctaButtons = some ctas) :
    ∃ r, analyzeDyn now page = Except.ok r := by
  by_cases happ : isApplicablePageType page.type = true
  · by_cases hlen : ctas.length = 0
    · exact ⟨createMissingCTAResult now page.id page.type af.height,
        by simp [analyzeDyn, happ, haf, hcb, hlen]⟩
    · by_cases hfil : 0 < (ctas.filter (fun cta => cta.prominent)).length
      · exact ⟨createSuccessResult, by simp [analyzeDyn, happ, haf, hcb, hlen, hfil]⟩
      · exact ⟨createWeakCTAResult now page.id ctas,
          by simp [analyzeDyn, happ, haf, hcb, hlen, hfil]⟩
  · have h : isApplicablePageType page.type = false := by simpa using happ
    exact ⟨createSkippedResult, by simp [analyzeDyn, h]⟩

/-- C2 witness: the amended no-throw statement instantiated on a fully
populated home page. -/
theorem heroCTA_C2_witness :
    pageDynOk.metrics.aboveFold = some ⟨some [], 800⟩ ∧
    (⟨some [], 800⟩ : AboveFoldDyn).ctaButtons = some [] ∧
    ∃ r, analyzeDyn 0 pageDynOk = Except.ok r :=
  ⟨rfl, rfl, heroCTA_C2_amended 0 pageDynOk ⟨some [], 800⟩ [] rfl rfl⟩

/-- C3: for every home or product page whose above-fold CTA list is empty,
`analyze` returns passed false, score 0, and a Finding with ruleId
`hero_cta_missing`, severity high, and evidence exactly the three entries
ctaCount 0, pageType, aboveFoldHeight. -/
theorem heroCTA_C3_missing (now : Nat) (page : Page)
    (htype : page.type = "home" ∨ page.type = "product")
    (hempty : page.metrics.aboveFold.ctaButtons = []) :
    (analyze now page).passed = false ∧ (analyze now page).score = 0 ∧
    ∃ f, (analyze now page).finding = some f ∧
      f.ruleId = "hero_cta_missing" ∧ f.severity = Severity.high ∧
      f.evidence = [("ctaCount", JVal.num 0),
                    ("pageType", JVal.str page.type),
                    ("aboveFoldHeight", JVal.num page.metrics.aboveFold.height)] := by
  have happ : isApplicablePageType page.type = true := (isApplicable_iff page.type).mpr htype
  rw [analyze_missing now page happ hempty]
  exact ⟨rfl, rfl, _, rfl, rfl, rfl, rfl⟩

/-- C3 witness: the empty-CTA result instantiated on a home page with no CTA
buttons and fold height 800. -/
theorem heroCTA_C3_witness :
    (pageEmpty.type = "home" ∨ pageEmpty.type = "product") ∧
    pageEmpty.metrics.aboveFold.ctaButtons = [] ∧
    ((analyze 0 pageEmpty).passed = false ∧ (analyze 0 pageEmpty).score = 0 ∧
      ∃ f, (analyze 0 pageEmpty).finding = some f ∧
        f.ruleId = "hero_cta_missing" ∧ f.severity = Severity.high ∧
        f.evidence = [("ctaCount", JVal.num 0),
                      ("pageType", JVal.str pageEmpty.type),
                      ("aboveFoldHeight", JVal.num pageEmpty.metrics.aboveFold.height)]) :=
  ⟨Or.inl rfl, rfl, heroCTA_C3_missing 0 pageEmpty (Or.inl rfl) rfl⟩

/-- C4 counterexample: on a product page whose single CTA has the extractor
flag set but measures 50 by 20, no entry qualifies as prominent in the spec's
sense (`isProminentCTA`, flag AND geometry), yet `analyze` returns full credit
(passed, score 15, no finding) instead of the claimed partial credit
(passed false, score 7, a hero_cta_weak finding). -/
theorem heroCTA_C4_counterexample :
    pageFlagMid.metrics.aboveFold.ctaButtons ≠ [] ∧
    (∀ c ∈ pageFlagMid.metrics.aboveFold.ctaButtons, isProminentCTA c = false) ∧
    (analyze 0 pageFlagMid).passed = true ∧ (analyze 0 pageFlagMid).score = 15 ∧
    (analyze 0 pageFlagMid).finding = none := by
  have hsucc : analyze 0 pageFlagMid = createSuccessResult := by
    apply analyze_success 0 pageFlagMid rfl
    exact ⟨mkCTA "Shop" 50 20 true, by simp [pageFlagMid, mkPage], rfl⟩
  refine ⟨by simp [pageFlagMid, mkPage], ?_, by rw [hsucc]; rfl, by rw [hsucc]; rfl,
    by rw [hsucc]; rfl⟩
  intro c hc
  simp only [pageFlagMid, mkPage, List.mem_singleton] at hc
  subst hc
  norm_num [isProminentCTA, mkCTA, MIN_PROMINENT_WIDTH, MIN_PROMINENT_HEIGHT]

/-- C4 amended: for every home or product page with a non-empty CTA list none
of whose entries has the extractor's `prominent` flag set, `analyze` returns
passed false, score floor(15 times 0.47) = 7, and a Finding with severity med
and ruleId `hero_cta_weak` whose evidence lists every candidate CTA with its
text, size, and prominence flag. -/
theorem heroCTA_C4_amended (now : Nat) (page : Page)
    (htype : page.type = "home" ∨ page.type = "product")
    (hne : page.metrics.aboveFold.ctaButtons ≠ [])
    (hnoflag : ∀ c ∈ page.metrics.aboveFold.ctaButtons, c.prominent = false) :
    (analyze now page).passed = false ∧
    (analyze now page).score = Int.floor ((15 : ℚ) * (47 / 100)) ∧
    (analyze now page).score = 7 ∧
    ∃ f, (analyze now page).finding = some f ∧
      f.ruleId = "hero_cta_weak" ∧ f.severity = Severity.med ∧
      f.evidence = [("ctaCount", JVal.num page.metrics.aboveFold.ctaButtons.length),
                    ("prominentCount", JVal.num 0),
                    ("weakCTAs", JVal.arr
                      (page.metrics.aboveFold.ctaButtons.map weakCTAEvidenceEntry))] := by
  have happ : isApplicablePageType page.type = true := (isApplicable_iff page.type).mpr htype
  rw [analyze_weak now page happ hne hnoflag]
  refine ⟨rfl, ?_, weakScore_val, _, rfl, rfl, rfl, rfl⟩
  norm_num [createWeakCTAResult, maxScore, WEAK_CTA_SCORE_RATIO]

/-- C4 witness: the weak-CTA result instantiated on a home page with one small
unflagged CTA. -/
theorem heroCTA_C4_witness :
    (pageWeak.type = "home" ∨ pageWeak.type = "product") ∧
    pageWeak.metrics.aboveFold.ctaButtons ≠ [] ∧
    (∀ c ∈ pageWeak.metrics.aboveFold.ctaButtons, c.prominent = false) ∧
    (analyze 0 pageWeak).passed = false ∧ (analyze 0 pageWeak).score = 7 := by
  have hne : pageWeak.metrics.aboveFold.ctaButtons ≠ [] := by simp [pageWeak, mkPage]
  have hnf : ∀ c ∈ pageWeak.metrics.aboveFold.ctaButtons, c.prominent = false := by
    intro c hc
    simp only [pageWeak, mkPage, List.mem_singleton] at hc
    subst hc
    rfl
  have h := heroCTA_C4_amended 0 pageWeak (Or.inl rfl) hne hnf
  exact ⟨Or.inl rfl, hne, hnf, h.1, h.2.2.1⟩

/-- C5: for every page whose type is neither home nor product, `analyze`
returns exactly the fixed skipped result, whatever the metrics hold — the
theorem is stated over the dynamic page model, so it holds even when the
metric sub-fields are entirely absent, showing the applicability decision is
made before any metric field is inspected. -/
theorem heroCTA_C5_skip (now : Nat) (page : PageDyn)
    (h1 : page.type ≠ "home") (h2 : page.type ≠ "product") :
    analyzeDyn now page =
      Except.ok { passed := false, score := 0, finding := none,
                  skipped := some true,
                  reason := some "Rule only applies to home and product pages" } := by
  have happ : isApplicablePageType page.type = false := by
    cases hb : isApplicablePageType page.type
    · rfl
    · rcases (isApplicable_iff page.type).mp hb with h | h
      · exact absurd h h1
      · exact absurd h h2
  simp [analyzeDyn, happ, createSkippedResult]

/-- C5 witness: the skip result instantiated on a collection page whose
metrics have no `aboveFold` group at all. -/
theorem heroCTA_C5_witness :
    pageDynColl.type ≠ "home" ∧ pageDynColl.type ≠ "product" ∧
    pageDynColl.metrics.aboveFold = none ∧
    analyzeDyn 0 pageDynColl =
      Except.ok { passed := false, score := 0, finding := none,
                  skipped := some true,
                  reason := some "Rule only applies to home and product pages" } :=
  ⟨by decide, by decide, rfl, heroCTA_C5_skip 0 pageDynColl (by decide) (by decide)⟩

/-- Content equality of optional findings: same pageId, ruleId, severity and
evidence, ignoring the id field. -/
def sameFindingContent : Option Finding → Option Finding → Prop
  | none, none => True
  | some f, some g =>
      f.pageId = g.pageId ∧ f.ruleId = g.ruleId ∧
      f.severity = g.severity ∧ f.evidence = g.evidence
  | _, _ => False

/-- The finding's id, when a finding is present, is the template
`ruleId + "-" + pageId + "-" + timestamp`. -/
def findingIdTimestamped (pid : String) (now : Nat) : Option Finding → Prop
  | none => True
  | some f => f.id = f.ruleId ++ "-" ++ pid ++ "-" ++ toString now

/-- C6: for every page, the result of `analyze` satisfies both invariants —
skipped true implies finding null and score 0, and passed implies finding
null. -/
theorem heroCTA_C6_invariants (now : Nat) (page : Page) :
    ((analyze now page).skipped = some true →
      (analyze now page).finding = none ∧ (analyze now page).score = 0) ∧
    ((analyze now page).passed = true → (analyze now page).finding = none) := by
  unfold analyze
  by_cases happ : isApplicablePageType page.type = true
  · by_cases hlen : page.metrics.aboveFold.ctaButtons.length = 0
    · simp [happ, hlen, createMissingCTAResult]
    · by_cases hfil :
        0 < (page.metrics.aboveFold.ctaButtons.filter (fun cta => cta.prominent)).length
      · simp [happ, hlen, hfil, createSuccessResult]
      · simp [happ, hlen, hfil, createWeakCTAResult]
  · have h : isApplicablePageType page.type = false := by simpa using happ
    simp [h, createSkippedResult]

/-- C6 witness: the skip invariant instantiated on a collection page and the
pass invariant instantiated on a home page with a prominent CTA. -/
theorem heroCTA_C6_witness :
    ((analyze 0 pageColl).finding = none ∧ (analyze 0 pageColl).score = 0) ∧
    (analyze 0 pageProm).finding = none :=
  ⟨(heroCTA_C6_invariants 0 pageColl).1 rfl, (heroCTA_C6_invariants 0 pageProm).2 rfl⟩

/-- C7: for every page, the score returned by `analyze` lies between 0 and the
rule's maxScore of 15. -/
theorem heroCTA_C7_scoreBounds (now : Nat) (page : Page) :
    0 ≤ (analyze now page).score ∧ (analyze now page).score ≤ maxScore := by
  by_cases happ : isApplicablePageType page.type = true
  · by_cases hlen : page.metrics.aboveFold.ctaButtons = []
    · rw [analyze_missing now page happ hlen]
      norm_num [createMissingCTAResult, maxScore]
    · by_cases hflag : ∃ c ∈ page.metrics.aboveFold.ctaButtons, c.prominent = true
      · rw [analyze_success now page happ hflag]
        norm_num [createSuccessResult, maxScore]
      · push_neg at hflag
        have hnoflag : ∀ c ∈ page.metrics.aboveFold.ctaButtons, c.prominent = false :=
          fun c hc => by simpa using hflag c hc
        rw [analyze_weak now page happ hlen hnoflag,
          show (createWeakCTAResult now page.id page.metrics.aboveFold.ctaButtons).score = 7
            from weakScore_val]
        norm_num [maxScore]
  · have h : isApplicablePageType page.type = false := by simpa using happ
    rw [analyze_skip now page h]
    norm_num [createSkippedResult, maxScore]

/-- C8: for every fixed page, two calls of `analyze` at different timestamps
return identical passed, score, skipped and reason, and identical finding
content (pageId, ruleId, severity, evidence); only the finding's id, which is
the template ruleId-pageId-timestamp, depends on the timestamp. -/
theorem heroCTA_C8_determinism (page : Page) (t1 t2 : Nat) :
    (analyze t1 page).passed = (analyze t2 page).passed ∧
    (analyze t1 page).score = (analyze t2 page).score ∧
    (analyze t1 page).skipped = (analyze t2 page).skipped ∧
    (analyze t1 page).reason = (analyze t2 page).reason ∧
    sameFindingContent (analyze t1 page).finding (analyze t2 page).finding ∧
    findingIdTimestamped page.id t1 (analyze t1 page).finding ∧
    findingIdTimestamped page.id t2 (analyze t2 page).finding := by
  unfold analyze
  by_cases happ : isApplicablePageType page.type = true
  · by_cases hlen : page.metrics.aboveFold.ctaButtons.length = 0
    · simp [happ, hlen, createMissingCTAResult, createFinding,
        sameFindingContent, findingIdTimestamped]
    · by_cases hfil :
        0 < (page.metrics.aboveFold.ctaButtons.filter (fun cta => cta.prominent)).length
      · simp [happ, hlen, hfil, createSuccessResult, sameFindingContent, findingIdTimestamped]
      · simp [happ, hlen, hfil, createWeakCTAResult, createFinding,
          sameFindingContent, findingIdTimestamped]
  · have h : isApplicablePageType page.type = false := by simpa using happ
    simp [h, createSkippedResult, sameFindingContent, findingIdTimestamped]

/-- C9: `isProminentCTA` returns true exactly when the extractor flag is set
and the width is at least 120 and the height is at least 35; in particular a
200 by 50 flagged CTA is prominent, an 80 by 20 unflagged CTA is not, and a
300 by 60 CTA whose flag is false is not prominent either. -/
theorem heroCTA_C9_prominenceAnd :
    (∀ cta : CTAButton, isProminentCTA cta = true ↔
      cta.prominent = true ∧ cta.size.width ≥ 120 ∧ cta.size.height ≥ 35) ∧
    isProminentCTA (mkCTA "Shop Now" 200 50 true) = true ∧
    isProminentCTA (mkCTA "Learn more" 80 20 false) = false ∧
    isProminentCTA (mkCTA "View collection" 300 60 false) = false := by
  refine ⟨?_, ?_, ?_, ?_⟩
  · intro cta
    simp only [isProminentCTA, MIN_PROMINENT_WIDTH, MIN_PROMINENT_HEIGHT,
      Bool.and_eq_true, decide_eq_true_eq]
    tauto
  · norm_num [isProminentCTA, mkCTA, MIN_PROMINENT_WIDTH, MIN_PROMINENT_HEIGHT]
  · norm_num [isProminentCTA, mkCTA, MIN_PROMINENT_WIDTH, MIN_PROMINENT_HEIGHT]
  · norm_num [isProminentCTA, mkCTA, MIN_PROMINENT_WIDTH, MIN_PROMINENT_HEIGHT]

/-- C10: for every page, the score returned by `analyze` is one of exactly
0, 7 or 15; passed holds exactly when the score is 15; and a skipped or
finding-bearing result always has passed false. -/
theorem heroCTA_C10_scoreValues (now : Nat) (page : Page) :
    ((analyze now page).score = 0 ∨ (analyze now page).score = 7 ∨
      (analyze now page).score = 15) ∧
    ((analyze now page).passed = true ↔ (analyze now page).score = 15) ∧
    ((analyze now page).skipped = some true → (analyze now page).passed = false) ∧
    ((analyze now page).finding ≠ none → (analyze now page).passed = false) := by
  by_cases happ : isApplicablePageType page.type = true
  · by_cases hlen : page.metrics.aboveFold.ctaButtons = []
    · rw [analyze_missing now page happ hlen]
      norm_num [createMissingCTAResult, createFinding]
    · by_cases hflag : ∃ c ∈ page.metrics.aboveFold.ctaButtons, c.prominent = true
      · rw [analyze_success now page happ hflag]
        exact ⟨Or.inr (Or.inr rfl), by norm_num [createSuccessResult, maxScore],
          fun h => Option.noConfusion h, fun h => absurd rfl h⟩
      · push_neg at hflag
        have hnoflag : ∀ c ∈ page.metrics.aboveFold.ctaButtons, c.prominent = false :=
          fun c hc => by simpa using hflag c hc
        rw [analyze_weak now page happ hlen hnoflag,
          show (createWeakCTAResult now page.id page.metrics.aboveFold.ctaButtons).score = 7
            from weakScore_val]
        norm_num [createWeakCTAResult, createFinding]
  · have h : isApplicablePageType page.type = false := by simpa using happ
    rw [analyze_skip now page h]
    norm_num [createSkippedResult]

/-- C10 witness: the skip-implies-not-passed implication instantiated on a
collection page. -/
theorem heroCTA_C10_witness : (analyze 0 pageColl).passed = false :=
  (heroCTA_C10_scoreValues 0 pageColl).2.2.1 rfl

end HeroCTARule

end ShopifyCRO
